import Mathlib

/-
Verification of the intro-to-pytorch notebooks (Part 3 - Training Neural
Networks, Part 5 - Inference and Validation) against their natural-language
specification.  The notebooks are straight-line sequences of library calls;
we embed the notebook code shallowly: loop bodies become lists of operation
tags, the autograd/optimizer interplay becomes an explicit state machine over
rationals, the accuracy aggregation becomes rational arithmetic over lists of
per-example outcomes, and tensor comparison with broadcasting becomes indexed
functions.
-/

/-! ### Operation order in the manual training loops (Part 3 cell 31, Part 5 cells 13 and 17) -/

/-- The five tracked operations of one iteration of a manual training loop. -/
inductive TrainOp where
  | forwardPass
  | lossComp
  | backwardPass
  | optStep
  | zeroGrad
  deriving DecidableEq

/-- Operation order of one iteration of the Part 3 exercise training loop:
loss = criterion(model(images), labels); loss.backward(); optimizer.step();
optimizer.zero_grad(). -/
def part3ExerciseBody : List TrainOp :=
  [.forwardPass, .lossComp, .backwardPass, .optStep, .zeroGrad]

/-- Operation order of one iteration of the Part 5 cell 13 training loop:
optimizer.zero_grad(); log_ps = model(images); loss = criterion(log_ps, labels);
loss.backward(); optimizer.step(). -/
def part5TrainBody : List TrainOp :=
  [.zeroGrad, .forwardPass, .lossComp, .backwardPass, .optStep]

/-- Operation order of one iteration of the Part 5 cell 17 dropout training loop:
optimizer.zero_grad(); preds = model(images); loss = criterion(preds, labels);
loss.backward(); optimizer.step(). -/
def part5DropoutTrainBody : List TrainOp :=
  [.zeroGrad, .forwardPass, .lossComp, .backwardPass, .optStep]

/-! ### Layer pipelines producing the values bound to the name logits (Part 3 cells 6, 8, 23) -/

/-- Network layers appearing in the Part 3 models. -/
inductive Layer where
  | linear (inF outF : Nat)
  | relu
  | softmaxDim1
  | logSoftmaxDim1
  deriving DecidableEq

/-- A layer is a probability-normalizing transform when it is a softmax or a
log-softmax. -/
def isNormalizer : Layer → Bool
  | .softmaxDim1 => true
  | .logSoftmaxDim1 => true
  | _ => false

/-- The Part 3 cell 6 model: Sequential(Linear(784,128), ReLU, Linear(128,64),
ReLU, Linear(64,10)).  The value bound by logits = model(images). -/
def part3Cell6Model : List Layer :=
  [.linear 784 128, .relu, .linear 128 64, .relu, .linear 64 10]

/-- The Part 3 cell 8 model: same stack, no normalizing layer; LogSoftmax is
applied separately to logits after the binding. -/
def part3Cell8Model : List Layer :=
  [.linear 784 128, .relu, .linear 128 64, .relu, .linear 64 10]

/-- The Part 3 cell 23 model: Sequential(..., Linear(64,10), LogSoftmax(dim=1)).
The value bound by logits = model(images) here is the LogSoftmax output. -/
def part3Cell23Model : List Layer :=
  [.linear 784 128, .relu, .linear 128 64, .relu, .linear 64 10, .logSoftmaxDim1]

/-- The model pipelines whose outputs the notebooks bind to the name logits. -/
def logitsBindingModels : List (List Layer) :=
  [part3Cell6Model, part3Cell8Model, part3Cell23Model]

/-- Whether the last stage of a pipeline is a normalizing transform, so that
its output is already normalized rather than raw. -/
def lastIsNormalizer (m : List Layer) : Bool :=
  match m.getLast? with
  | some l => isNormalizer l
  | none => false

/-! ### Statement shape of the manual loops (Part 3 cell 31, Part 5 cells 13 and 17) -/

/-- Statement kinds occurring in the notebook loops.  The condStmt constructor
stands for conditional control flow (if / elif); it never occurs in the
transcriptions below. -/
inductive PyStmt where
  | assignStmt
  | callStmt
  | augAssignStmt
  | forHeaderStmt
  | withHeaderStmt
  | elseHeaderStmt
  | printCall
  | condStmt
  deriving DecidableEq

/-- A statement list is branch free when it contains no conditional. -/
def isBranchFree (l : List PyStmt) : Bool :=
  l.all (fun s => !(s == PyStmt.condStmt))

/-- The Part 3 exercise training loop, statement by statement: for e; running_loss = 0;
for images, labels; images = images.view(...); loss = criterion(model(images), labels);
loss.backward(); optimizer.step(); optimizer.zero_grad(); running_loss += loss.item();
else; print. -/
def part3TrainingLoopStmts : List PyStmt :=
  [.forHeaderStmt, .assignStmt, .forHeaderStmt, .assignStmt, .assignStmt,
   .callStmt, .callStmt, .callStmt, .augAssignStmt, .elseHeaderStmt, .printCall]

/-- The Part 5 cell 13 training loop over trainloader: for images, labels;
optimizer.zero_grad(); log_ps = model(images); loss = criterion(log_ps, labels);
loss.backward(); optimizer.step(); running_loss += loss.item(). -/
def part5TrainLoopStmts : List PyStmt :=
  [.forHeaderStmt, .callStmt, .assignStmt, .assignStmt, .callStmt, .callStmt,
   .augAssignStmt]

/-- The Part 5 cell 13 validation pass over testloader: accuracy = [];
for images, labels; with torch.no_grad(); probs = torch.exp(model(images));
top_p, top_class = probs.topk(1, dim=1); equals = top_class == labels.view(...);
accuracy.append(...); accuracy = sum(accuracy)/len(accuracy); print. -/
def part5ValidationLoopStmts : List PyStmt :=
  [.assignStmt, .forHeaderStmt, .withHeaderStmt, .assignStmt, .assignStmt,
   .assignStmt, .callStmt, .assignStmt, .printCall]

/-- The Part 5 cell 17 dropout training loop over trainloader: for images, labels;
optimizer.zero_grad(); preds = model(images); loss = criterion(preds, labels);
loss.backward(); optimizer.step(); probs = torch.exp(preds); top_p, top_class = probs.topk(1, dim=1);
acc = top_class == labels.view(...); train_acc += torch.mean(...). -/
def part5DropoutTrainLoopStmts : List PyStmt :=
  [.forHeaderStmt, .callStmt, .assignStmt, .assignStmt, .callStmt, .callStmt,
   .assignStmt, .assignStmt, .assignStmt, .augAssignStmt]

/-- The Part 5 cell 17 test accuracy loop over testloader: for images, labels;
with torch.no_grad(); model.eval(); test_preds = model(images); loss = criterion(...);
test_probs = torch.exp(test_preds); _, test_class = test_probs.topk(1, dim=1);
acc = test_class == labels.view(...); test_acc += torch.mean(...); model.train(). -/
def part5DropoutTestLoopStmts : List PyStmt :=
  [.forHeaderStmt, .withHeaderStmt, .callStmt, .assignStmt, .assignStmt,
   .assignStmt, .assignStmt, .assignStmt, .augAssignStmt, .callStmt]

/-! ### Theorems for claims C2, C3, C7 -/

/-- Claim C2, counterexample: the Part 5 cell 13 training loop does not run its
operations in the order forward, loss, backward, step, zero_grad; it zeroes the
gradients first. -/
theorem part5TrainBody_not_claimed_order :
    part5TrainBody ≠
      [TrainOp.forwardPass, TrainOp.lossComp, TrainOp.backwardPass,
       TrainOp.optStep, TrainOp.zeroGrad] := by
  decide

/-- Claim C2, amended: the Part 3 exercise loop runs forward, loss, backward,
step, then zero_grad in each iteration, while both Part 5 training loops run
zero_grad first, then forward, loss, backward, step. -/
theorem trainLoop_operation_orders :
    part3ExerciseBody =
      [TrainOp.forwardPass, TrainOp.lossComp, TrainOp.backwardPass,
       TrainOp.optStep, TrainOp.zeroGrad] ∧
    part5TrainBody =
      [TrainOp.zeroGrad, TrainOp.forwardPass, TrainOp.lossComp,
       TrainOp.backwardPass, TrainOp.optStep] ∧
    part5DropoutTrainBody =
      [TrainOp.zeroGrad, TrainOp.forwardPass, TrainOp.lossComp,
       TrainOp.backwardPass, TrainOp.optStep] := by
  decide

/-- Claim C3, counterexample: the model of Part 3 cell 23 ends with
LogSoftmax(dim=1), so the value bound to logits there is already normalized,
refuting the claim that every logits binding is pre-normalization. -/
theorem logits_binding_cell23_normalized :
    part3Cell23Model ∈ logitsBindingModels ∧
    lastIsNormalizer part3Cell23Model = true := by
  decide

/-- Claim C3, amended: the logits bindings of Part 3 cells 6 and 8 are raw
outputs of the final Linear(64,10) layer with no normalizing transform applied,
while the logits binding of cell 23 comes from a model whose final layer is
LogSoftmax(dim=1), hence is already log-normalized. -/
theorem logits_bindings_classified :
    lastIsNormalizer part3Cell6Model = false ∧
    part3Cell6Model.getLast? = some (Layer.linear 64 10) ∧
    lastIsNormalizer part3Cell8Model = false ∧
    part3Cell8Model.getLast? = some (Layer.linear 64 10) ∧
    lastIsNormalizer part3Cell23Model = true := by
  decide

/-- Claim C7: every manual training loop and every manual accuracy/validation
loop in the notebooks is fewer than twenty statement lines and contains no
conditional control flow of its own. -/
theorem loops_short_and_branch_free :
    (part3TrainingLoopStmts.length < 20 ∧ isBranchFree part3TrainingLoopStmts = true) ∧
    (part5TrainLoopStmts.length < 20 ∧ isBranchFree part5TrainLoopStmts = true) ∧
    (part5ValidationLoopStmts.length < 20 ∧ isBranchFree part5ValidationLoopStmts = true) ∧
    (part5DropoutTrainLoopStmts.length < 20 ∧ isBranchFree part5DropoutTrainLoopStmts = true) ∧
    (part5DropoutTestLoopStmts.length < 20 ∧ isBranchFree part5DropoutTestLoopStmts = true) := by
  decide

/-! ### Accuracy aggregation (Part 5 cells 13 and 17) -/

/-- Fraction of correct predictions within one batch, as the notebooks compute
it per batch with torch.mean(equals.type(torch.FloatTensor)): number of true
entries divided by batch size. -/
def batchAccuracy (b : List Bool) : ℚ :=
  (b.countP (fun x => x) : ℚ) / (b.length : ℚ)

/-- The accuracy value the notebooks compute and print for an epoch:
accuracy = sum(accuracy)/len(accuracy) over the per-batch means, that is the
unweighted mean of the per-batch accuracy fractions. -/
def notebookAccuracy (batches : List (List Bool)) : ℚ :=
  ((batches.map batchAccuracy).sum) / (batches.length : ℚ)

/-- Modelled from the spec: the fraction of held-out examples for which the
predicted class matches the true label, over all examples of all batches. -/
def specOverallAccuracy (batches : List (List Bool)) : ℚ :=
  ((batches.map (fun b => b.countP (fun x => x))).sum : ℚ) /
    ((batches.map List.length).sum : ℚ)

/-- The per-example outcome pattern of a concrete epoch over the 10000-example
test set partitioned by the loader into 156 batches of 64 and one final batch
of 16: all examples of the full batches predicted correctly, all examples of
the final batch mispredicted. -/
def unevenEpoch : List (List Bool) :=
  List.replicate 156 (List.replicate 64 true) ++ [List.replicate 16 false]

set_option maxRecDepth 100000

/-- Count of elements of a replicated list satisfying a predicate. -/
theorem countP_repl {α : Type} (p : α → Bool) (n : ℕ) (a : α) :
    (List.replicate n a).countP p = if p a then n else 0 := by
  induction n with
  | zero => simp
  | succ m ih =>
    rw [List.replicate_succ, List.countP_cons, ih]
    by_cases h : p a <;> simp [h]

/-- Claim C1, counterexample: on the concrete epoch over the 10000-example test
set partitioned into 156 full batches of 64 and one final batch of 16, the
accuracy value the notebook computes and prints, namely the unweighted mean of
the per-batch accuracies 156/157, differs from the fraction of test examples
whose predicted class matches the true label, namely 9984/10000. -/
theorem notebookAccuracy_ne_fraction :
    (unevenEpoch.map List.length = List.replicate 156 64 ++ [16]) ∧
    (∀ b ∈ unevenEpoch, b.length ≤ 64) ∧
    notebookAccuracy unevenEpoch ≠ specOverallAccuracy unevenEpoch := by
  refine ⟨by simp [unevenEpoch], ?_, ?_⟩
  · intro b hb
    rcases List.mem_append.mp hb with h | h
    · rw [List.eq_of_mem_replicate h]; simp
    · simp at h; rw [h]; simp
  · have h1 : notebookAccuracy unevenEpoch = 156 / 157 := by
      simp [notebookAccuracy, unevenEpoch, batchAccuracy, countP_repl]
      norm_num
    have h2 : specOverallAccuracy unevenEpoch = 624 / 625 := by
      simp [specOverallAccuracy, unevenEpoch, batchAccuracy, countP_repl]
      norm_num
    rw [h1, h2]
    norm_num

/-- Sum of the per-batch accuracies when all batches have length k. -/
theorem sum_batchAccuracy_uniform (batches : List (List Bool)) (k : ℕ)
    (hlen : ∀ b ∈ batches, b.length = k) :
    (batches.map batchAccuracy).sum =
      ((batches.map (fun b => b.countP (fun x => x))).sum : ℚ) / (k : ℚ) := by
  induction batches with
  | nil => simp
  | cons b bs ih =>
    have hb : b.length = k := hlen b (List.mem_cons_self b bs)
    have hbs : ∀ x ∈ bs, x.length = k := fun x hx => hlen x (List.mem_cons_of_mem b hx)
    rw [List.map_cons, List.map_cons, List.sum_cons, List.sum_cons, ih hbs,
      batchAccuracy, hb]
    rw [add_div]

/-- Sum of the batch lengths when all batches have length k. -/
theorem sum_lengths_uniform (batches : List (List Bool)) (k : ℕ)
    (hlen : ∀ b ∈ batches, b.length = k) :
    (batches.map List.length).sum = batches.length * k := by
  induction batches with
  | nil => simp
  | cons b bs ih =>
    have hb : b.length = k := hlen b (List.mem_cons_self b bs)
    have hbs : ∀ x ∈ bs, x.length = k := fun x hx => hlen x (List.mem_cons_of_mem b hx)
    rw [List.map_cons, List.sum_cons, ih hbs, List.length_cons, hb]
    ring

/-- Claim C1, amended: the accuracy the notebooks print is the unweighted mean
of the per-batch accuracy fractions; it equals the fraction of held-out
examples whose predicted class matches the true label whenever all batches of
the test loader have the same size. -/
theorem notebookAccuracy_eq_fraction_of_uniform (batches : List (List Bool)) (k : ℕ)
    (hlen : ∀ b ∈ batches, b.length = k) :
    notebookAccuracy batches = specOverallAccuracy batches := by
  rw [notebookAccuracy, specOverallAccuracy, sum_batchAccuracy_uniform batches k hlen,
    sum_lengths_uniform batches k hlen]
  rw [div_div]
  push_cast
  ring_nf

/-- Claim C1 witness: the amended theorem applied to two singleton batches, one
correct and one incorrect prediction, where both aggregations give 1/2. -/
theorem notebookAccuracy_eq_fraction_witness :
    notebookAccuracy [[true], [false]] = specOverallAccuracy [[true], [false]] :=
  notebookAccuracy_eq_fraction_of_uniform [[true], [false]] 1 (by
    intro b hb
    rcases List.mem_cons.mp hb with h | h
    · rw [h]; rfl
    · simp at h; rw [h]; rfl)

/-! ### Gradient accumulation and the optimizer (Part 3 cells 28, 29 and 31) -/

/-- The training state the notebook manipulates through the library: the model
parameters and the accumulated parameter gradients.  Uninitialized gradients
behave as zero on the first accumulation. -/
structure SGDState where
  theta : ℚ
  grad : ℚ
  deriving DecidableEq

/-- One iteration of the Part 3 exercise training pass, given the gradient
function gr of the loss and the optimizer update stepFn: loss.backward()
accumulates the gradient of the current batch onto the stored gradients,
optimizer.step() updates the parameters from the accumulated gradients, and
optimizer.zero_grad() clears the gradients at the end of the iteration. -/
def exercisePass (gr stepFn : ℚ → ℚ → ℚ) (s : SGDState) (x : ℚ) : SGDState :=
  let accumulated : SGDState := { theta := s.theta, grad := s.grad + gr s.theta x }
  let stepped : SGDState :=
    { theta := stepFn accumulated.theta accumulated.grad, grad := accumulated.grad }
  { theta := stepped.theta, grad := 0 }

/-- One iteration of the single-step pattern demonstrated in Part 3 cells 28
and 29: optimizer.zero_grad() first, then the forward and backward pass
accumulating onto the cleared gradients, then optimizer.step(); the gradients
are left in place afterwards. -/
def demoPass (gr stepFn : ℚ → ℚ → ℚ) (s : SGDState) (x : ℚ) : SGDState :=
  let zeroed : SGDState := { theta := s.theta, grad := 0 }
  let accumulated : SGDState :=
    { theta := zeroed.theta, grad := zeroed.grad + gr zeroed.theta x }
  { theta := stepFn accumulated.theta accumulated.grad, grad := accumulated.grad }

/-- The sequence of parameter values after each optimizer step of a run. -/
def thetaTrace (pass : SGDState → ℚ → SGDState) : SGDState → List ℚ → List ℚ
  | _, [] => []
  | s, x :: xs =>
    (pass s x).theta :: thetaTrace pass (pass s x) xs

/-- The demonstrated pattern zeroes the gradients before reading anything, so
its parameter trace does not depend on the gradients stored at entry. -/
theorem demoTrace_grad_irrel (gr stepFn : ℚ → ℚ → ℚ) (xs : List ℚ) (t g g' : ℚ) :
    thetaTrace (demoPass gr stepFn) ⟨t, g⟩ xs =
      thetaTrace (demoPass gr stepFn) ⟨t, g'⟩ xs := by
  cases xs with
  | nil => rfl
  | cons x xs => rfl

/-- Claim C4: starting from parameters t0 with zero or uninitialized gradients,
the exercise training pass of Part 3 cell 31 produces, on every sequence of
training batches, the same sequence of parameter updates as the demonstrated
pattern of cells 28 and 29. -/
theorem exercisePass_refines_demoPass (gr stepFn : ℚ → ℚ → ℚ) (t0 : ℚ) (xs : List ℚ) :
    thetaTrace (exercisePass gr stepFn) ⟨t0, 0⟩ xs =
      thetaTrace (demoPass gr stepFn) ⟨t0, 0⟩ xs := by
  induction xs generalizing t0 with
  | nil => rfl
  | cons x xs ih =>
    simp only [thetaTrace]
    have htail : thetaTrace (exercisePass gr stepFn) (exercisePass gr stepFn ⟨t0, 0⟩ x) xs
        = thetaTrace (demoPass gr stepFn) (demoPass gr stepFn ⟨t0, 0⟩ x) xs := by
      have h1 : exercisePass gr stepFn ⟨t0, 0⟩ x = ⟨stepFn t0 (0 + gr t0 x), 0⟩ := rfl
      rw [h1, ih]
      exact demoTrace_grad_irrel gr stepFn xs (stepFn t0 (0 + gr t0 x)) 0 (0 + gr t0 x)
    rw [htail]
    rfl

/-- The states at the start of each iteration of the exercise training loop. -/
def exerciseIterStates (gr stepFn : ℚ → ℚ → ℚ) : SGDState → List ℚ → List SGDState
  | _, [] => []
  | s, x :: xs => s :: exerciseIterStates gr stepFn (exercisePass gr stepFn s x) xs

/-- The gradient value each optimizer.step() of the exercise loop applies: the
stored gradients plus the backward-pass gradient of the current batch. -/
def appliedGrads (gr stepFn : ℚ → ℚ → ℚ) : SGDState → List ℚ → List ℚ
  | _, [] => []
  | s, x :: xs => (s.grad + gr s.theta x) :: appliedGrads gr stepFn (exercisePass gr stepFn s x) xs

/-- The gradient of exactly the current batch at each iteration. -/
def freshGrads (gr stepFn : ℚ → ℚ → ℚ) : SGDState → List ℚ → List ℚ
  | _, [] => []
  | s, x :: xs => gr s.theta x :: freshGrads gr stepFn (exercisePass gr stepFn s x) xs

/-- Claim C8: in the Part 3 exercise loop started with zero or uninitialized
gradients, the stored gradients are zero at the start of every iteration, hence
at every loss.backward() call, and therefore every optimizer.step() applies
the gradients of exactly one batch. -/
theorem exercise_loop_grads_zero (gr stepFn : ℚ → ℚ → ℚ) (t0 : ℚ) (xs : List ℚ) :
    (exerciseIterStates gr stepFn ⟨t0, 0⟩ xs).map SGDState.grad =
      List.replicate xs.length 0 ∧
    appliedGrads gr stepFn ⟨t0, 0⟩ xs = freshGrads gr stepFn ⟨t0, 0⟩ xs := by
  constructor
  · induction xs generalizing t0 with
    | nil => rfl
    | cons x xs ih =>
      simp only [exerciseIterStates, List.map_cons, List.length_cons, List.replicate_succ]
      have h1 : exercisePass gr stepFn ⟨t0, 0⟩ x = ⟨stepFn t0 (0 + gr t0 x), 0⟩ := rfl
      rw [h1, ih]
  · induction xs generalizing t0 with
    | nil => rfl
    | cons x xs ih =>
      simp only [appliedGrads, freshGrads]
      have h1 : exercisePass gr stepFn ⟨t0, 0⟩ x = ⟨stepFn t0 (0 + gr t0 x), 0⟩ := rfl
      rw [h1, ih, zero_add]

/-! ### The dropout classifier (Part 5 cells 16, 17 and 19) -/

/-- Stages of the Classifier2 forward pass of Part 5 cell 16. -/
inductive NetStage where
  | flattenStage
  | fcStage (i : ℕ)
  | reluStage
  | dropoutStage
  | logSoftmaxStage
  deriving DecidableEq

/-- The Classifier2 forward pass, stage by stage: x = x.flatten(start_dim=1);
x = dropout(relu(fc1(x))); x = dropout(relu(fc2(x)));
x = log_softmax(fc3(x), dim=1). -/
def classifier2Stages : List NetStage :=
  [.flattenStage, .fcStage 1, .reluStage, .dropoutStage,
   .fcStage 2, .reluStage, .dropoutStage, .fcStage 3, .logSoftmaxStage]

/-- The externally provided layers: the affine layers, the log-softmax and the
flatten reshape are library functions, abstracted as given maps on
rational-valued feature vectors; the mask holds the random draws of each
dropout application. -/
structure NetEnv where
  fcFun : ℕ → (ℕ → ℚ) → (ℕ → ℚ)
  lsFun : (ℕ → ℚ) → (ℕ → ℚ)
  flattenFun : (ℕ → ℚ) → (ℕ → ℚ)
  p : ℚ
  mask : ℕ → ℕ → Bool

/-- Semantics of nn.Dropout(p): while the model is in training mode each value
is zeroed when its mask entry is false and scaled by 1/(1-p) otherwise; in
evaluation mode, after model.eval(), it is the identity. -/
def dropoutFun (training : Bool) (p : ℚ) (m : ℕ → Bool) (v : ℕ → ℚ) : ℕ → ℚ :=
  if training then (fun i => if m i then v i / (1 - p) else 0) else v

/-- Run the forward stages; d counts the dropout applications made so far so
that each application uses its own row of the random mask. -/
def runNet (env : NetEnv) (training : Bool) : List NetStage → ℕ → (ℕ → ℚ) → (ℕ → ℚ)
  | [], _, v => v
  | .flattenStage :: rest, d, v => runNet env training rest d (env.flattenFun v)
  | .fcStage i :: rest, d, v => runNet env training rest d (env.fcFun i v)
  | .reluStage :: rest, d, v => runNet env training rest d (fun j => max 0 (v j))
  | .dropoutStage :: rest, d, v =>
    runNet env training rest (d + 1) (dropoutFun training env.p (env.mask d) v)
  | .logSoftmaxStage :: rest, d, v => runNet env training rest d (env.lsFun v)

/-- In evaluation mode every dropout stage is the identity, so running any
stage list equals running the same list with the dropout stages removed. -/
theorem runNet_eval_drops_dropout (env : NetEnv) (l : List NetStage) :
    ∀ (d d' : ℕ) (v : ℕ → ℚ),
      runNet env false l d v =
        runNet env false (l.filter (fun s => !(s == NetStage.dropoutStage))) d' v := by
  induction l with
  | nil => intro d d' v; rfl
  | cons s rest ih =>
    intro d d' v
    cases s with
    | flattenStage => simp only [List.filter_cons]; exact ih d d' (env.flattenFun v)
    | fcStage i => simp only [List.filter_cons]; exact ih d d' (env.fcFun i v)
    | reluStage => simp only [List.filter_cons]; exact ih d d' (fun j => max 0 (v j))
    | dropoutStage =>
      simp only [List.filter_cons]
      have hid : dropoutFun false env.p (env.mask d) v = v := rfl
      show runNet env false rest (d + 1) (dropoutFun false env.p (env.mask d) v) = _
      rw [hid]
      exact ih (d + 1) d' v
    | logSoftmaxStage => simp only [List.filter_cons]; exact ih d d' (env.lsFun v)

/-- Claim C5: in the dropout classifier, dropout is applied exactly after each
of the two hidden-layer activations at stages 3 and 6, never after the final
fc3 layer or the log-softmax output; while training it zeroes the masked-out
intermediate values, and in evaluation mode after model.eval() the forward
pass coincides with the dropout-free pipeline. -/
theorem classifier2_dropout_only_hidden_and_training (env : NetEnv) (v : ℕ → ℚ) :
    runNet env false classifier2Stages 0 v =
      runNet env false
        (classifier2Stages.filter (fun s => !(s == NetStage.dropoutStage))) 0 v ∧
    classifier2Stages.filter (fun s => !(s == NetStage.dropoutStage)) =
      [.flattenStage, .fcStage 1, .reluStage, .fcStage 2, .reluStage,
       .fcStage 3, .logSoftmaxStage] ∧
    classifier2Stages.count NetStage.dropoutStage = 2 ∧
    classifier2Stages.get? 2 = some NetStage.reluStage ∧
    classifier2Stages.get? 3 = some NetStage.dropoutStage ∧
    classifier2Stages.get? 5 = some NetStage.reluStage ∧
    classifier2Stages.get? 6 = some NetStage.dropoutStage ∧
    classifier2Stages.get? 7 = some (NetStage.fcStage 3) ∧
    classifier2Stages.get? 8 = some NetStage.logSoftmaxStage ∧
    classifier2Stages.length = 9 ∧
    (∀ (q : ℚ) (m : ℕ → Bool) (w : ℕ → ℚ) (i : ℕ),
      dropoutFun true q m w i = if m i then w i / (1 - q) else 0) := by
  refine ⟨runNet_eval_drops_dropout env classifier2Stages 0 0 v, by decide, by decide,
    by decide, by decide, by decide, by decide, by decide, by decide, by decide,
    fun q m w i => rfl⟩

/-! ### Error propagation through the loops (Part 5 cell 13; same shape in Part 3 cell 31) -/

/-- Run a sequence of fallible library calls from a state with no handler
between them: the first raised error aborts the rest. -/
def runCalls {S E : Type} : List (S → Except E S) → S → Except E S
  | [], s => .ok s
  | c :: rest, s =>
    match c s with
    | .error e => .error e
    | .ok s1 => runCalls rest s1

/-- The five library calls of one iteration of the Part 5 training loop in
source order: optimizer.zero_grad(), the forward pass, the loss computation,
loss.backward(), optimizer.step(). -/
def part5BodyCalls {S E : Type} (zg fw ls bw st : S → Except E S) :
    List (S → Except E S) := [zg, fw, ls, bw, st]

/-- One iteration of the Part 5 training loop as the uncaught sequencing of its
five library calls. -/
def part5TrainBodyRun {S E : Type} (zg fw ls bw st : S → Except E S) (s : S) :
    Except E S := runCalls (part5BodyCalls zg fw ls bw st) s

/-- The loop over the training batches; the notebook wraps the body in no
try/except, retry or fallback. -/
def trainLoopRun {S E B : Type} (body : B → S → Except E S) : List B → S → Except E S
  | [], s => .ok s
  | b :: bs, s =>
    match body b s with
    | .error e => .error e
    | .ok s1 => trainLoopRun body bs s1

/-- An error raised after a successful prefix of calls aborts the whole call
sequence with that same error. -/
theorem runCalls_error_propagates {S E : Type} (pre : List (S → Except E S))
    (c : S → Except E S) (post : List (S → Except E S)) (s s1 : S) (e : E)
    (hpre : runCalls pre s = .ok s1) (hc : c s1 = .error e) :
    runCalls (pre ++ c :: post) s = .error e := by
  induction pre generalizing s with
  | nil =>
    have hs : s = s1 := by
      have h0 : Except.ok (ε := E) s = .ok s1 := hpre
      exact Except.ok.inj h0
    subst hs
    show runCalls (c :: post) s = .error e
    simp only [runCalls, hc]
  | cons c0 rest ih =>
    cases h0 : c0 s with
    | error e0 =>
      exfalso
      have : runCalls (c0 :: rest) s = .error e0 := by simp only [runCalls, h0]
      rw [this] at hpre
      exact Except.noConfusion hpre
    | ok s2 =>
      have hrest : runCalls rest s2 = .ok s1 := by
        have : runCalls (c0 :: rest) s = runCalls rest s2 := by simp only [runCalls, h0]
        rw [this] at hpre
        exact hpre
      show runCalls (c0 :: (rest ++ c :: post)) s = .error e
      simp only [runCalls, h0]
      exact ih s2 hrest

/-- Claim C6: when any one of the five library calls of a Part 5 training
iteration is the first to fail, its error propagates unchanged through the
iteration body and through the whole loop; the remaining calls and batches are
not run and the notebook code performs no retry, fallback or state
restoration. -/
theorem trainLoop_error_uncaught {S E B : Type} (zg fw ls bw st : B → S → Except E S)
    (b : B) (bs : List B) (s s1 : S) (e : E)
    (pre post : List (S → Except E S)) (c : S → Except E S)
    (hsplit : part5BodyCalls (zg b) (fw b) (ls b) (bw b) (st b) = pre ++ c :: post)
    (hpre : runCalls pre s = .ok s1) (hc : c s1 = .error e) :
    part5TrainBodyRun (zg b) (fw b) (ls b) (bw b) (st b) s = .error e ∧
    trainLoopRun
      (fun b0 s0 => part5TrainBodyRun (zg b0) (fw b0) (ls b0) (bw b0) (st b0) s0)
      (b :: bs) s = .error e := by
  have hbody : part5TrainBodyRun (zg b) (fw b) (ls b) (bw b) (st b) s = .error e := by
    rw [part5TrainBodyRun, hsplit]
    exact runCalls_error_propagates pre c post s s1 e hpre hc
  refine ⟨hbody, ?_⟩
  simp only [trainLoopRun]
  rw [hbody]

/-- A zero_grad call that succeeds, used by the witness below. -/
def zgOkCall : ℕ → ℕ → Except ℕ ℕ := fun _ s => .ok (s + 1)

/-- A forward call that raises error 7, used by the witness below. -/
def fwFailCall : ℕ → ℕ → Except ℕ ℕ := fun _ _ => .error 7

/-- A library call that succeeds unchanged, used by the witness below. -/
def okCall : ℕ → ℕ → Except ℕ ℕ := fun _ s => .ok s

/-- Claim C6 witness: with a failing forward pass on the first batch, the body
and the loop both surface error 7. -/
theorem trainLoop_error_uncaught_witness :
    part5TrainBodyRun (zgOkCall 0) (fwFailCall 0) (okCall 0) (okCall 0) (okCall 0) 0
        = .error 7 ∧
    trainLoopRun
      (fun b0 s0 =>
        part5TrainBodyRun (zgOkCall b0) (fwFailCall b0) (okCall b0) (okCall b0)
          (okCall b0) s0) [0] 0 = .error 7 :=
  trainLoop_error_uncaught zgOkCall fwFailCall okCall okCall okCall 0 [] 0 1 7
    [zgOkCall 0] [okCall 0, okCall 0, okCall 0] (fwFailCall 0) rfl rfl rfl

/-! ### Tensor equality and broadcasting (Part 5 cells 9, 13 and 17) -/

/-- labels.view(*top_class.shape): reshape the 1-D label vector of length n
into an (n, 1) column tensor. -/
def labelsView (n : ℕ) (lb : Fin n → ℤ) : Fin n → Fin 1 → ℤ := fun i _ => lb i

/-- Elementwise == of two tensors of the identical shape (n, 1). -/
def tensorEqSameShape (n : ℕ) (a b : Fin n → Fin 1 → ℤ) : Fin n → Fin 1 → Bool :=
  fun i j => a i j == b i j

/-- Comparison of an (n, 1) tensor with an unreshaped 1-D length-n tensor under
the broadcasting rule: trailing axes are aligned, so the column is expanded
along columns and the vector along rows, yielding an (n, n) result. -/
def tensorEqBroadcast (n : ℕ) (a : Fin n → Fin 1 → ℤ) (b : Fin n → ℤ) :
    Fin n → Fin n → Bool := fun i j => a i 0 == b j

/-- Claim C9: equals = top_class == labels.view(*top_class.shape) is an (n, 1)
boolean tensor whose entry at example i is true exactly when the predicted
class of example i equals label i, while comparing against the unreshaped 1-D
labels broadcasts to an (n, n) tensor whose (i, j) entry compares prediction i
with label j. -/
theorem equals_entries_pointwise (n : ℕ) (tc : Fin n → Fin 1 → ℤ)
    (lb : Fin n → ℤ) (i j : Fin n) (u : Fin 1) :
    tensorEqSameShape n tc (labelsView n lb) i u = (tc i 0 == lb i) ∧
    (tensorEqSameShape n tc (labelsView n lb) i u = true ↔ tc i 0 = lb i) ∧
    tensorEqBroadcast n tc lb i j = (tc i 0 == lb j) ∧
    (tensorEqBroadcast n tc lb i j = true ↔ tc i 0 = lb j) := by
  have hu : u = 0 := Fin.eq_zero u
  subst hu
  refine ⟨rfl, ?_, rfl, ?_⟩
  · show (tc i 0 == lb i) = true ↔ tc i 0 = lb i
    exact beq_iff_eq
  · show (tc i 0 == lb j) = true ↔ tc i 0 = lb j
    exact beq_iff_eq

/-! ### The in-place resize of the demonstration batch (Part 3 cells 4 and 28) -/

/-- Model of Tensor.resize_ on the flat pixel storage: the resized tensor keeps
the first k values of the old storage, continuing into adjacent uninitialized
memory when the old data runs out. -/
def resizeDataTo (data garbage : List ℚ) (k : ℕ) : List ℚ := (data ++ garbage).take k

/-- The batch sizes drawn by DataLoader(trainset, batch_size=b) over n examples
with drop_last left at its default False: full batches of b, then the nonzero
remainder as a final partial batch. -/
def loaderBatchSizes (n b : ℕ) : List ℕ :=
  List.replicate (n / b) b ++ (if n % b = 0 then [] else [n % b])

/-- Claim C10: images.resize_(64, 784) keeps the pixel data unchanged exactly
when the batch holds 64 images of 784 pixels; the first batch of the MNIST
trainloader over 60000 examples with batch size 64 has 64 images, while the
final partial batch has only 32, so the precondition fails there. -/
theorem resize_preserves_iff_full_batch (data garbage : List ℚ) (m : ℕ)
    (hlen : data.length = m * 784) (hroom : 64 * 784 ≤ data.length + garbage.length) :
    (resizeDataTo data garbage (64 * 784) = data ↔ m = 64) ∧
    (loaderBatchSizes 60000 64).head? = some 64 ∧
    (loaderBatchSizes 60000 64).getLast? = some 32 ∧
    (32 : ℕ) * 784 ≠ 64 * 784 := by
  have hsizes : loaderBatchSizes 60000 64 = List.replicate 937 64 ++ [32] := by
    rw [loaderBatchSizes]
    norm_num
  refine ⟨?_, ?_, ?_, by norm_num⟩
  · constructor
    · intro h
      have hl : (resizeDataTo data garbage (64 * 784)).length = data.length := by rw [h]
      rw [resizeDataTo, List.length_take, List.length_append, min_eq_left hroom, hlen] at hl
      exact Nat.eq_of_mul_eq_mul_right (by norm_num) hl.symm
    · intro h
      subst h
      rw [resizeDataTo, ← hlen, List.take_left]
  · rw [hsizes, show (937 : ℕ) = 936 + 1 from rfl, List.replicate_succ]
    rfl
  · rw [hsizes, List.getLast?_concat]

/-- Claim C10 witness: a full batch of 64 blank images is preserved by the
resize, and the loader facts hold outright. -/
theorem resize_preserves_iff_full_batch_witness :
    (resizeDataTo (List.replicate (64 * 784) (0 : ℚ)) [] (64 * 784) =
      List.replicate (64 * 784) (0 : ℚ)) ∧
    (loaderBatchSizes 60000 64).head? = some 64 ∧
    (loaderBatchSizes 60000 64).getLast? = some 32 := by
  have h := resize_preserves_iff_full_batch (List.replicate (64 * 784) (0 : ℚ)) [] 64
    (by rw [List.length_replicate]) (by rw [List.length_replicate]; norm_num)
  exact ⟨h.1.mpr rfl, h.2.1, h.2.2.1⟩
